import Mathlib

/-!
Verification model of the lighthouse-automation-suite repository.

The repository extracts Lighthouse scores/metrics from JSON payloads
(`main.py`), classifies metric values against Core Web Vitals thresholds
in three reporting surfaces (`generate_enhanced_html_report.py`,
`generate_html_report.py`, `test_colors.py`), and appends result rows to
CSV storage (`write_to_csv` in `main.py`).

Numeric values are modelled as exact rationals (the Python code uses
floats; every comparison relevant here is against threshold literals at
which the rational and floating-point behaviour coincide for the inputs
considered).  Python strings are modelled as `List Char`/`String`;
`float(...)` is modelled for plain decimal literals (optional sign,
digits, at most one dot), which covers every string the cleaned inputs
of this code base can produce; Python's special float syntax (inf/nan,
exponents, underscores) is outside the model and treated as unparseable.
-/

namespace LighthouseSuite

/-! ### Python string primitives -/

/-- Python `a.isPrefixOf`-style check on character lists: does `pat` start `l`? -/
def isPrefList : List Char → List Char → Bool
  | [], _ => true
  | _ :: _, [] => false
  | a :: as, b :: bs => a == b && isPrefList as bs

/-- Substring containment (`pat in s` for Python strings), on character lists. -/
def isInfixList (pat : List Char) : List Char → Bool
  | [] => pat.isEmpty
  | c :: rest => isPrefList pat (c :: rest) || isInfixList pat rest

/-- Python `pat in s` for strings. -/
def containsSub (s pat : String) : Bool :=
  isInfixList pat.toList s.toList

/-- Fuelled worker for Python `str.replace`: leftmost, non-overlapping. -/
def replaceAux (pat rep : List Char) : Nat → List Char → List Char
  | _, [] => []
  | 0, l => l
  | Nat.succ fuel, c :: rest =>
    if isPrefList pat (c :: rest) then
      rep ++ replaceAux pat rep fuel ((c :: rest).drop pat.length)
    else
      c :: replaceAux pat rep fuel rest

/-- Python `s.replace(pat, rep)` (all occurrences) on character lists. -/
def pyReplace (pat rep s : List Char) : List Char :=
  replaceAux pat rep s.length s

/-- Whitespace recognised by Python `str.strip()` (ASCII subset). -/
def isPySpace (c : Char) : Bool :=
  c == ' ' || c == '\t' || c == '\n' || c == '\r'

/-- Python `s.strip()` on character lists. -/
def stripList (l : List Char) : List Char :=
  ((l.dropWhile isPySpace).reverse.dropWhile isPySpace).reverse

/-- Python `s.isdigit()` (ASCII digits): nonempty and all digits. -/
def pyIsdigit (l : List Char) : Bool :=
  !l.isEmpty && l.all Char.isDigit

/-- Numeric value of a run of ASCII digits. -/
def digitsToNat (l : List Char) : Nat :=
  l.foldl (fun n c => n * 10 + (c.toNat - 48)) 0

/-- Python `float(s)` restricted to plain decimal literals: optional
surrounding whitespace, optional sign, digits with at most one dot and at
least one digit.  Returns `none` where Python raises `ValueError`.
The value of `[-]i.f` is the exact rational `±(i·10^k + f) / 10^k` with
`k` the number of fractional digits. -/
def pyFloat (l : List Char) : Option ℚ :=
  let l := stripList l
  let signBody : ℤ × List Char :=
    match l with
    | '-' :: rest => (-1, rest)
    | '+' :: rest => (1, rest)
    | _ => (1, l)
  let sign := signBody.1
  let body := signBody.2
  let intPart := body.takeWhile Char.isDigit
  let rest := body.dropWhile Char.isDigit
  match rest with
  | [] =>
    if intPart.isEmpty then none
    else some (mkRat (sign * (digitsToNat intPart : ℤ)) 1)
  | '.' :: frac =>
    if frac.all Char.isDigit && (!intPart.isEmpty || !frac.isEmpty) then
      some (mkRat (sign * ((digitsToNat intPart : ℤ) * 10 ^ frac.length + (digitsToNat frac : ℤ)))
        (10 ^ frac.length))
    else none
  | _ => none

/-- Python `s.lower()` followed by nothing: ASCII lowercase of a string. -/
def lowerStr (s : String) : String :=
  String.mk (s.toList.map Char.toLower)

/-! ### Metric kinds and threshold tables -/

/-- The five Core Web Vitals metric kinds shared by the three
classification surfaces. -/
inductive MetricKind
  | fcp | lcp | tbt | cls | si
  deriving DecidableEq

/-- Thresholds hard-coded in `get_metric_class` of
`generate_enhanced_html_report.py` (TBT in milliseconds, the rest in
seconds / unitless). -/
def enhGoodPoor : MetricKind → ℚ × ℚ
  | .fcp => (mkRat 18 10, 3)
  | .lcp => (mkRat 25 10, 4)
  | .tbt => (200, 600)
  | .cls => (mkRat 1 10, mkRat 25 100)
  | .si => (mkRat 34 10, mkRat 58 10)

/-- The strict-`<` tier chain of `get_metric_class` in
`generate_enhanced_html_report.py` (lines 416-464): `value < good` is
good, else `value < poor` is needs-improvement, else poor. -/
def enhThresholdClass (k : MetricKind) (v : ℚ) : String :=
  if v < (enhGoodPoor k).1 then "metric-good"
  else if v < (enhGoodPoor k).2 then "metric-needs-improvement"
  else "metric-poor"

/-- Thresholds of the `thresholds` dict in `get_metric_class` of
`generate_html_report.py` (lines 787-798); TBT is in seconds there. -/
def stdGoodPoor : MetricKind → ℚ × ℚ
  | .fcp => (mkRat 18 10, 3)
  | .lcp => (mkRat 25 10, 4)
  | .tbt => (mkRat 2 10, mkRat 6 10)
  | .cls => (mkRat 1 10, mkRat 25 100)
  | .si => (mkRat 34 10, mkRat 58 10)

/-- The `<=` tier chain of `get_metric_class` in
`generate_html_report.py` (lines 800-807): `value <= good` is good,
else `value <= poor` is average, else poor. -/
def stdThresholdClass (k : MetricKind) (v : ℚ) : String :=
  if v ≤ (stdGoodPoor k).1 then "score-good"
  else if v ≤ (stdGoodPoor k).2 then "score-average"
  else "score-poor"

/-- Thresholds of the `thresholds` dict in `test_colors.py`
(lines 26-33), for the five Core Web Vitals kinds (TBT in milliseconds). -/
def testGoodPoor : MetricKind → ℚ × ℚ
  | .fcp => (mkRat 18 10, 3)
  | .lcp => (mkRat 25 10, 4)
  | .tbt => (200, 600)
  | .cls => (mkRat 1 10, mkRat 25 100)
  | .si => (mkRat 34 10, mkRat 58 10)

/-- The `<=` tier chain of `get_metric_class` in `test_colors.py`
(lines 35-39). -/
def testThresholdClass (k : MetricKind) (v : ℚ) : String :=
  if v ≤ (testGoodPoor k).1 then "metric-good"
  else if v ≤ (testGoodPoor k).2 then "metric-needs-improvement"
  else "metric-poor"

/-! ### Enhanced report classifier (`generate_enhanced_html_report.py`) -/

/-- Value cleaning and parse guard of `get_metric_class` in
`generate_enhanced_html_report.py` (lines 408-413):
`str(value_str).replace('s','').replace('ms','').replace(',','').strip()`,
then returns `none` ("metric-neutral") when the cleaned string is empty,
fails the digit guard `clean.replace('.','').replace('-','').isdigit()`,
or `float` raises. -/
def enhParse (value_str : String) : Option ℚ :=
  let clean :=
    stripList (pyReplace [','] [] (pyReplace ['m', 's'] [] (pyReplace ['s'] [] value_str.toList)))
  if clean.isEmpty then none
  else if !pyIsdigit (pyReplace ['-'] [] (pyReplace ['.'] [] clean)) then none
  else pyFloat clean

/-- Metric-kind dispatch of `get_metric_class` in
`generate_enhanced_html_report.py`: ordered substring tests on
`metric_name.lower()`. -/
def enhKind (metric_name : String) : Option MetricKind :=
  let n := lowerStr metric_name
  if containsSub n "first_contentful_paint" then some .fcp
  else if containsSub n "largest_contentful_paint" then some .lcp
  else if containsSub n "total_blocking_time" then some .tbt
  else if containsSub n "cumulative_layout_shift" then some .cls
  else if containsSub n "speed_index" then some .si
  else none

/-- Function `get_metric_class` of `generate_enhanced_html_report.py`
(lines 405-468).  The TBT branch multiplies by 1000 when the raw value
string contains the character `s` and the parsed value is below 10
(the "likely in seconds" heuristic of line 437). -/
def get_metric_class_enh (metric_name value_str : String) : String :=
  match enhParse value_str with
  | none => "metric-neutral"
  | some value =>
    match enhKind metric_name with
    | none => "metric-neutral"
    | some k =>
      let v :=
        if k = MetricKind.tbt then
          if containsSub value_str "s" && decide (value < 10) then value * 1000 else value
        else value
      enhThresholdClass k v

/-! ### Standard report classifier (`generate_html_report.py`) -/

/-- Key lookup in the `thresholds` dict of `get_metric_class` in
`generate_html_report.py`: exact match on the ten device-prefixed metric
names. -/
def stdKindOfName (name : String) : Option MetricKind :=
  if name = "mobile_first_contentful_paint" || name = "desktop_first_contentful_paint" then
    some .fcp
  else if name = "mobile_largest_contentful_paint" || name = "desktop_largest_contentful_paint" then
    some .lcp
  else if name = "mobile_total_blocking_time" || name = "desktop_total_blocking_time" then
    some .tbt
  else if name = "mobile_cumulative_layout_shift" || name = "desktop_cumulative_layout_shift" then
    some .cls
  else if name = "mobile_speed_index" || name = "desktop_speed_index" then
    some .si
  else none

/-- Value handling of `get_metric_class` in `generate_html_report.py`
(lines 771-785): `None`/NaN (modelled as `none`), `''` and `'N/A'` are
rejected; the string is cleaned with the same replace/strip chain; a
`float` failure is caught as `ValueError`; finally the value is divided
by 1000 when the original string contains `ms`.  `none` here means every
code path that ends in `'score-poor'` before the threshold lookup. -/
def stdParse (value_str : Option String) : Option ℚ :=
  match value_str with
  | none => none
  | some s =>
    if s = "" || s = "N/A" then none
    else
      let clean :=
        stripList (pyReplace [','] [] (pyReplace ['m', 's'] [] (pyReplace ['s'] [] s.toList)))
      if clean.isEmpty then none
      else
        match pyFloat clean with
        | none => none
        | some v => some (if containsSub s "ms" then v / 1000 else v)

/-- Function `get_metric_class` of `generate_html_report.py` (lines 768-811):
unparseable values and names outside the thresholds dict all return
`'score-poor'`. -/
def get_metric_class_std (metric_name : String) (value_str : Option String) : String :=
  match stdParse value_str with
  | none => "score-poor"
  | some v =>
    match stdKindOfName metric_name with
    | none => "score-poor"
    | some k => stdThresholdClass k v

/-! ### `test_colors.py` classifier -/

/-- A Python value handed to `get_metric_class` of `test_colors.py`:
a string, a number, or NaN. -/
inductive PyVal
  | str (s : String)
  | num (q : ℚ)
  | nan

/-- The regex extraction `re.search(r'(\d+\.?\d*)', value)` of
`test_colors.py`: first maximal digit run, an optional dot, then a digit
run.  Returns the numeric value of the match, or `none` when no digit
occurs. -/
def regexNum : List Char → Option ℚ
  | [] => none
  | c :: rest =>
    if c.isDigit then
      let intPart := (c :: rest).takeWhile Char.isDigit
      let afterInt := (c :: rest).dropWhile Char.isDigit
      match afterInt with
      | '.' :: tail =>
        let frac := tail.takeWhile Char.isDigit
        some (mkRat ((digitsToNat intPart : ℤ) * 10 ^ frac.length + (digitsToNat frac : ℤ))
          (10 ^ frac.length))
      | _ => some (mkRat (digitsToNat intPart : ℤ) 1)
    else regexNum rest

/-- Kind dispatch of `test_colors.py`: the five Core Web Vitals tags.
The extra `performance` entry of its thresholds dict is handled
separately in `get_metric_class_test`. -/
def testKindOfName (t : String) : Option MetricKind :=
  if t = "fcp" then some .fcp
  else if t = "lcp" then some .lcp
  else if t = "tbt" then some .tbt
  else if t = "cls" then some .cls
  else if t = "si" then some .si
  else none

/-- Function `get_metric_class` of `test_colors.py` (lines 4-41). -/
def get_metric_class_test (value : PyVal) (metric_type : String) : String :=
  match value with
  | .nan => "metric-na"
  | .str s =>
    if s = "N/A" then "metric-na"
    else
      match regexNum s.toList with
      | none => "metric-na"
      | some v => testDispatch metric_type v
  | .num q => testDispatch metric_type q
where
  /-- Threshold lookup and `<=` chain of `test_colors.py`, including the
  `performance` entry `{'good': 90, 'poor': 50}` applied verbatim by the
  same chain. -/
  testDispatch (metric_type : String) (v : ℚ) : String :=
    if metric_type = "performance" then
      if v ≤ 90 then "metric-good"
      else if v ≤ 50 then "metric-needs-improvement"
      else "metric-poor"
    else
      match testKindOfName metric_type with
      | none => "metric-default"
      | some k => testThresholdClass k v

/-! ### `main.py`: payload model -/

/-- Association-list lookup with Python-dict semantics (keys unique;
first match returned; `none` for a missing key). -/
def assocLookup {β : Type} : List (String × β) → String → Option β
  | [], _ => none
  | (k', v) :: rest, k => if k' = k then some v else assocLookup rest k

/-- The slice of a Lighthouse audit object read by `main.py`.
`score` distinguishes an absent field (`none`), an explicit JSON `null`
(`some none`) and a number (`some (some q)`), because
`audit.get('score')` and `audit.get('score', 0)` treat them differently.
`savings` is `details.overallSavingsMs` when `details` is present and
carries that key with a number, else `none` (matching
`audit.get('details', {}).get('overallSavingsMs', 0)` up to the final
default).  `title`/`description`/`displayValue` are `none` when absent.
An audit key whose value is the empty dict `{}` is identified with an
absent key: both fail the `if audit:` truthiness test in `main.py`. -/
structure Audit where
  score : Option (Option ℚ)
  savings : Option ℚ
  title : Option String
  description : Option String
  displayValue : Option String

/-- The slice of a Lighthouse category object read by
`extract_lighthouse_data`: `title` (`none` when absent, so that the
category key is used instead) and `score` (`none` for JSON `null` or an
absent field — `category_data.get('score')` treats both alike). -/
structure Category where
  title : Option String
  score : Option ℚ
  deriving DecidableEq

/-- Python `x.lower().replace(' ', '_')` applied to category titles in
`extract_lighthouse_data`. -/
def pyLowerUnd (s : String) : String :=
  String.mk ((s.toList.map Char.toLower).map (fun c => if c = ' ' then '_' else c))

/-- Python `int(score * 100)` on an exact rational score: truncation of
`100·score` toward zero (`Int.tdiv` truncates toward zero, as Python
`int()` does). -/
def pyIntTimes100 (s : ℚ) : ℤ :=
  Int.tdiv (100 * s.num) (s.den : ℤ)

/-- Python dict assignment `data[name] = v`: replace the value of an
existing key, else append the new binding. -/
def dictInsert : List (String × ℤ) → String → ℤ → List (String × ℤ)
  | [], k, v => [(k, v)]
  | (k', v') :: rest, k, v =>
    if k' = k then (k, v) :: rest else (k', v') :: dictInsert rest k v

/-- The field name `f"{device_type}_{category_name}"` of
`extract_lighthouse_data`, with
`category_name = category_data.get('title', category_key).lower().replace(' ', '_')`. -/
def catFieldName (device key : String) (cat : Category) : String :=
  device ++ "_" ++ pyLowerUnd (cat.title.getD key)

/-- Worker for the category loop of `extract_lighthouse_data`
(`main.py` lines 200-211): for each category whose `score` is not
`None`, set `data[catFieldName] = int(score * 100)`. -/
def extractCategoriesAux (device : String) :
    List (String × Category) → List (String × ℤ) → List (String × ℤ)
  | [], data => data
  | (key, cat) :: rest, data =>
    match cat.score with
    | none => extractCategoriesAux device rest data
    | some s =>
      extractCategoriesAux device rest
        (dictInsert data (catFieldName device key cat) (pyIntTimes100 s))

/-- The category-score portion of `extract_lighthouse_data` in
`main.py` (lines 200-211).  The metric portion of that function
(lines 213-249) feeds string-valued fields and is not consulted by any
claim about this function. -/
def extract_lighthouse_data_categories (categories : List (String × Category))
    (device : String) : List (String × ℤ) :=
  extractCategoriesAux device categories []

/-! ### `main.py`: insight miners -/

/-- Banker's rounding (round half to even), as Python's `round` and
string formatting use. -/
def roundHalfEven (q : ℚ) : ℤ :=
  let f := q.floor
  if q - f < mkRat 1 2 then f
  else if mkRat 1 2 < q - f then f + 1
  else if f % 2 = 0 then f else f + 1

/-- Python `f"{x:.2f}"` for a nonnegative rational. -/
def pyFormat2f (x : ℚ) : String :=
  let n := (roundHalfEven (x * 100)).toNat
  toString (n / 100) ++ "." ++ (if n % 100 < 10 then "0" ++ toString (n % 100) else toString (n % 100))

/-- The `opportunity_audits` catalog of `extract_performance_opportunities`
(`main.py` lines 273-286), in source order. -/
def opportunity_audits : List (String × String) :=
  [("uses-optimized-images", "Optimize images"),
   ("modern-image-formats", "Use modern image formats"),
   ("unused-css-rules", "Remove unused CSS"),
   ("render-blocking-resources", "Eliminate render-blocking resources"),
   ("uses-text-compression", "Enable text compression"),
   ("efficient-animated-content", "Use efficient animated content"),
   ("uses-responsive-images", "Use appropriately sized images"),
   ("offscreen-images", "Defer offscreen images"),
   ("unminified-css", "Minify CSS"),
   ("unminified-javascript", "Minify JavaScript"),
   ("uses-http2", "Use HTTP/2"),
   ("font-display", "Ensure text remains visible during webfont load")]

/-- An emitted performance-opportunity record (`main.py` lines 293-303). -/
structure OppRecord where
  url : String
  device_type : String
  audit_id : String
  title : String
  description : String
  score : ℚ
  potential_savings_ms : ℚ
  potential_savings_s : String
  impact : String
  deriving DecidableEq

/-- One iteration of the loop in `extract_performance_opportunities`
(`main.py` lines 288-303): emit a record when the audit is present
(truthy), its score is a number `< 1`, and
`details.overallSavingsMs` defaulted to 0 is `> 0`. -/
def oppStep (audits : List (String × Audit)) (device url : String)
    (kd : String × String) : Option OppRecord :=
  match assocLookup audits kd.1 with
  | none => none
  | some a =>
    match a.score with
    | some (some s) =>
      if s < 1 then
        let m := a.savings.getD 0
        if 0 < m then
          some { url := url
                 device_type := device
                 audit_id := kd.1
                 title := a.title.getD kd.2
                 description := a.description.getD ""
                 score := s
                 potential_savings_ms := m
                 potential_savings_s := pyFormat2f (m / 1000)
                 impact := if 1000 < m then "High" else if 500 < m then "Medium" else "Low" }
        else none
      else none
    | _ => none

/-- Function `extract_performance_opportunities` of `main.py` (lines 257-309). -/
def extract_performance_opportunities (audits : List (String × Audit))
    (device url : String) : List OppRecord :=
  opportunity_audits.filterMap (oppStep audits device url)

/-- The `seo_audits` catalog of `extract_seo_details`
(`main.py` lines 378-388), in source order. -/
def seo_audits : List (String × String) :=
  [("meta-description", "Meta description"),
   ("document-title", "Document title"),
   ("structured-data", "Structured data"),
   ("robots-txt", "Robots.txt"),
   ("canonical", "Canonical links"),
   ("hreflang", "Hreflang"),
   ("is-crawlable", "Page is crawlable"),
   ("font-size", "Font size"),
   ("tap-targets", "Tap targets")]

/-- An emitted SEO record (`main.py` lines 394-403). -/
structure SeoRecord where
  url : String
  device_type : String
  audit_id : String
  title : String
  description : String
  score : Option ℚ
  status : String
  displayValue : String
  deriving DecidableEq

/-- Python `audit.get('score', 0)`: an absent field defaults to the
number 0, a `null` stays `None` (`none`), a number is itself. -/
def pyScoreGetD (a : Audit) : Option ℚ :=
  match a.score with
  | none => some 0
  | some v => v

/-- The status expression of `extract_seo_details` (`main.py` line 393):
`'Pass' if audit.get('score', 0) == 1 else 'Fail' if audit.get('score', 0) == 0 else 'Warning'`.
A Python `None` (here `none`) compares unequal to both 1 and 0. -/
def seoStatusOf (a : Audit) : String :=
  match pyScoreGetD a with
  | none => "Warning"
  | some q => if q = 1 then "Pass" else if q = 0 then "Fail" else "Warning"

/-- One iteration of the loop in `extract_seo_details`
(`main.py` lines 390-403): every present (truthy) catalog audit emits
exactly one record. -/
def seoStep (audits : List (String × Audit)) (device url : String)
    (kd : String × String) : Option SeoRecord :=
  (assocLookup audits kd.1).map fun a =>
    { url := url
      device_type := device
      audit_id := kd.1
      title := a.title.getD kd.2
      description := a.description.getD ""
      score := pyScoreGetD a
      status := seoStatusOf a
      displayValue := a.displayValue.getD "" }

/-- Function `extract_seo_details` of `main.py` (lines 363-409). -/
def extract_seo_details (audits : List (String × Audit))
    (device url : String) : List SeoRecord :=
  seo_audits.filterMap (seoStep audits device url)

/-! ### `main.py`: CSV writer -/

/-- Python `k.startswith('_')`. -/
def startsWithUnderscore (k : String) : Bool :=
  match k.toList with
  | '_' :: _ => true
  | _ => false

/-- The fixed `fieldnames` list of `write_to_csv` in `main.py`
(lines 425-454), in source order. -/
def baseFieldnames : List String :=
  ["url", "final_url",
   "mobile_performance", "mobile_accessibility", "mobile_best_practices", "mobile_seo",
   "desktop_performance", "desktop_accessibility", "desktop_best_practices", "desktop_seo",
   "mobile_first_contentful_paint", "mobile_largest_contentful_paint",
   "mobile_total_blocking_time", "mobile_cumulative_layout_shift", "mobile_speed_index",
   "mobile_time_to_interactive", "mobile_first_meaningful_paint",
   "desktop_first_contentful_paint", "desktop_largest_contentful_paint",
   "desktop_total_blocking_time", "desktop_cumulative_layout_shift", "desktop_speed_index",
   "desktop_time_to_interactive", "desktop_first_meaningful_paint"]

/-- Python `clean_data = ...` comprehension of `main.py` line 422: keep
only the entries whose key does not start with an underscore. -/
def cleanData (data : List (String × String)) : List (String × String) :=
  data.filter fun kv => !startsWithUnderscore kv.1

/-- Fieldname accumulation of `write_to_csv` (`main.py` lines 456-460):
the fixed list, then every key of the clean record not already present,
in record order. -/
def fieldnamesFor (clean : List (String × String)) : List String :=
  clean.foldl (fun fns kv => if fns.contains kv.1 then fns else fns ++ [kv.1]) baseFieldnames

/-- The data row `csv.DictWriter(...).writerow(clean_data)` emits: one
cell per fieldname, the record's value or `''` when the record lacks the
key (`restval` default). -/
def dataRowFor (clean : List (String × String)) : List String :=
  (fieldnamesFor clean).map fun f => (assocLookup clean f).getD ""

/-- Function `write_to_csv` of `main.py` (lines 411-481) as a transition on the
CSV file contents.  The file is `none` when nonexistent and `some rows`
when present (possibly with `rows = []` for an existing empty file —
`open(filename, "r")` succeeds on it, so `file_exists` is true).  An
empty `data` dict returns without touching the file; otherwise a header
row (the fieldnames) is written only when the file did not exist, and
the clean data row is appended. -/
def write_to_csv (store : Option (List (List String))) (data : List (String × String)) :
    Option (List (List String)) :=
  if data = [] then store
  else
    let clean := cleanData data
    match store with
    | none => some [fieldnamesFor clean, dataRowFor clean]
    | some rows => some (rows ++ [dataRowFor clean])

/-! ### Abstract tiers -/

/-- Abstract classification tier shared by the reporting surfaces. -/
inductive Tier
  | good | needsImprovement | poor | unknown
  deriving DecidableEq

/-- Map each surface's CSS label to the abstract tier it denotes. -/
def labelTier (s : String) : Tier :=
  if s = "metric-good" || s = "score-good" then .good
  else if s = "metric-needs-improvement" || s = "score-average" then .needsImprovement
  else if s = "metric-poor" || s = "score-poor" then .poor
  else .unknown

/-- Badness rank of a tier: good 0, needs-improvement 1, poor 2,
unknown 3. -/
def tierRank : Tier → Nat
  | .good => 0
  | .needsImprovement => 1
  | .poor => 2
  | .unknown => 3

/-! ### Theorems: classifier claims -/

/-- C1 (counterexample): the spec claims a value exactly on a "good"
boundary is classified good by the Metric Classifier, but the enhanced
HTML report's `get_metric_class` uses strict `<`, so FCP exactly 1.8
classifies needs-improvement, not good. -/
theorem C1_boundary_counterexample :
    get_metric_class_enh "mobile_first_contentful_paint" "1.8" = "metric-needs-improvement" ∧
    "metric-needs-improvement" ≠ "metric-good" := by
  constructor
  · decide
  · decide

/-- C1 (amended): boundary values are inclusive to the lower tier in the
standard HTML report generator and in `test_colors` (whose chains use
`<=`): each kind's good boundary classifies good and its poor boundary
classifies needs-improvement there; the enhanced HTML report generator
instead assigns both boundaries to the higher tier (good boundary →
needs-improvement, poor boundary → poor). -/
theorem C1_boundaries_amended (k : MetricKind) :
    stdThresholdClass k (stdGoodPoor k).1 = "score-good" ∧
    stdThresholdClass k (stdGoodPoor k).2 = "score-average" ∧
    testThresholdClass k (testGoodPoor k).1 = "metric-good" ∧
    testThresholdClass k (testGoodPoor k).2 = "metric-needs-improvement" ∧
    enhThresholdClass k (enhGoodPoor k).1 = "metric-needs-improvement" ∧
    enhThresholdClass k (enhGoodPoor k).2 = "metric-poor" := by
  cases k <;> decide

/-- C2 (counterexample): the three `get_metric_class` functions do not
return the same tier for the same input: FCP with raw value "1.8" is
needs-improvement in the enhanced report but good in the standard
report. -/
theorem C2_single_source_counterexample :
    get_metric_class_enh "mobile_first_contentful_paint" "1.8" = "metric-needs-improvement" ∧
    get_metric_class_std "mobile_first_contentful_paint" (some "1.8") = "score-good" ∧
    labelTier "metric-needs-improvement" ≠ labelTier "score-good" := by
  refine ⟨by decide, by decide, by decide⟩

/-- C2 (amended): for the four kinds whose thresholds agree across the
surfaces (FCP, LCP, CLS, SI — TBT is thresholded in milliseconds by the
enhanced report and `test_colors` but in seconds by the standard
report), the standard report and `test_colors` classify every parsed
numeric value to the same tier, and the enhanced report agrees with them
except exactly at the two boundary values of the kind, where its strict
comparisons give the next-worse tier. -/
theorem C2_single_source_amended (k : MetricKind) (hk : k ≠ MetricKind.tbt) (v : ℚ) :
    labelTier (stdThresholdClass k v) = labelTier (testThresholdClass k v) ∧
    (v ≠ (stdGoodPoor k).1 → v ≠ (stdGoodPoor k).2 →
      labelTier (enhThresholdClass k v) = labelTier (stdThresholdClass k v)) := by
  have e1 : (testGoodPoor k).1 = (stdGoodPoor k).1 := by
    cases k <;> first | rfl | exact absurd rfl hk
  have e2 : (testGoodPoor k).2 = (stdGoodPoor k).2 := by
    cases k <;> first | rfl | exact absurd rfl hk
  have f1 : (enhGoodPoor k).1 = (stdGoodPoor k).1 := by
    cases k <;> first | rfl | exact absurd rfl hk
  have f2 : (enhGoodPoor k).2 = (stdGoodPoor k).2 := by
    cases k <;> first | rfl | exact absurd rfl hk
  constructor
  · simp only [stdThresholdClass, testThresholdClass, e1, e2]
    split_ifs <;> decide
  · intro h1 h2
    simp only [enhThresholdClass, stdThresholdClass, f1, f2]
    rcases h1.lt_or_lt with hg | hg
    · rw [if_pos hg, if_pos (le_of_lt hg)]; decide
    · rcases h2.lt_or_lt with hp | hp
      · rw [if_neg (not_lt.mpr (le_of_lt hg)), if_pos hp,
          if_neg (not_le.mpr hg), if_pos (le_of_lt hp)]
        decide
      · rw [if_neg (not_lt.mpr (le_of_lt hg)), if_neg (not_lt.mpr (le_of_lt hp)),
          if_neg (not_le.mpr hg), if_neg (not_le.mpr hp)]
        decide

/-- Witness for `C2_single_source_amended` at kind FCP and value 1. -/
theorem C2_single_source_amended_witness :
    labelTier (stdThresholdClass MetricKind.fcp 1) =
      labelTier (testThresholdClass MetricKind.fcp 1) ∧
    labelTier (enhThresholdClass MetricKind.fcp 1) =
      labelTier (stdThresholdClass MetricKind.fcp 1) := by
  have h := C2_single_source_amended MetricKind.fcp (by decide) 1
  exact ⟨h.1, h.2 (by decide) (by decide)⟩

/-- C4 (counterexample): the spec claims the classifier returns unknown
(never poor) when the value fails to parse, but the standard HTML
report's `get_metric_class` returns `'score-poor'` for the unparseable
value "N/A". -/
theorem C4_unknown_counterexample :
    get_metric_class_std "mobile_first_contentful_paint" (some "N/A") = "score-poor" ∧
    labelTier "score-poor" ≠ Tier.unknown := by
  refine ⟨by decide, by decide⟩

/-- C4 (amended): both classifiers are total with a closed result set;
the enhanced report's classifier returns the neutral (unknown) class
whenever the value fails to parse or the metric kind is unrecognized,
but the standard report's classifier returns `'score-poor'` — not an
unknown class — in those situations. -/
theorem C4_totality_amended (name vs : String) (ovs : Option String) :
    (get_metric_class_enh name vs = "metric-good" ∨
      get_metric_class_enh name vs = "metric-needs-improvement" ∨
      get_metric_class_enh name vs = "metric-poor" ∨
      get_metric_class_enh name vs = "metric-neutral") ∧
    (enhParse vs = none → get_metric_class_enh name vs = "metric-neutral") ∧
    (enhKind name = none → get_metric_class_enh name vs = "metric-neutral") ∧
    (get_metric_class_std name ovs = "score-good" ∨
      get_metric_class_std name ovs = "score-average" ∨
      get_metric_class_std name ovs = "score-poor") ∧
    (stdParse ovs = none → get_metric_class_std name ovs = "score-poor") ∧
    (stdKindOfName name = none → get_metric_class_std name ovs = "score-poor") := by
  refine ⟨?_, ?_, ?_, ?_, ?_, ?_⟩
  · unfold get_metric_class_enh
    cases enhParse vs with
    | none => simp
    | some v =>
      cases enhKind name with
      | none => simp
      | some k =>
        simp only [enhThresholdClass]
        split_ifs <;> simp
  · intro h; unfold get_metric_class_enh; rw [h]
  · intro h; unfold get_metric_class_enh
    cases hp : enhParse vs with
    | none => rfl
    | some v => rw [h]
  · unfold get_metric_class_std
    cases stdParse ovs with
    | none => simp
    | some v =>
      cases stdKindOfName name with
      | none => simp
      | some k =>
        simp only [stdThresholdClass]
        split_ifs <;> simp
  · intro h; unfold get_metric_class_std; rw [h]
  · intro h; unfold get_metric_class_std
    cases hp : stdParse ovs with
    | none => rfl
    | some v => rw [h]

/-- Witness for `C4_totality_amended`: the unparseable value "abc" is
neutral in the enhanced report and poor in the standard report. -/
theorem C4_totality_amended_witness :
    get_metric_class_enh "mobile_first_contentful_paint" "abc" = "metric-neutral" ∧
    get_metric_class_std "mobile_first_contentful_paint" (some "N/") = "score-poor" := by
  have h := C4_totality_amended "mobile_first_contentful_paint" "abc" (some "N/")
  exact ⟨h.2.1 (by decide), h.2.2.2.2.1 (by decide)⟩

/-- C5 (code bug): the display value "2,500 ms" for
largest-contentful-paint should normalize to the canonical 2.5 s and
classify good (the standard generator even carries a dedicated
`value / 1000` branch for `ms` values, and its comment says the cleaning
handles the `'s'` and `'ms'` suffixes).  But both cleaning pipelines run
`.replace('s','')` before `.replace('ms','')`, turning `"ms"` into a
stray `"m"`, so the value never parses: the enhanced report yields
neutral and the standard report yields poor, while the intended
canonical value 2.5 would classify good in the standard chain. -/
theorem C5_ms_suffix_bug :
    enhParse "2,500 ms" = none ∧
    stdParse (some "2,500 ms") = none ∧
    get_metric_class_enh "mobile_largest_contentful_paint" "2,500 ms" = "metric-neutral" ∧
    get_metric_class_std "mobile_largest_contentful_paint" (some "2,500 ms") = "score-poor" ∧
    stdThresholdClass MetricKind.lcp (mkRat 25 10) = "score-good" := by
  refine ⟨by decide, by decide, by decide, by decide, by decide⟩

/-- C6: each surface's threshold chain is monotone in the canonical
value: a smaller parsed value never classifies to a worse tier, for
every metric kind of the threshold table, in the enhanced report, the
standard report and `test_colors`. -/
theorem C6_classifier_monotone (k : MetricKind) (v1 v2 : ℚ) (h : v1 < v2) :
    tierRank (labelTier (enhThresholdClass k v1)) ≤
      tierRank (labelTier (enhThresholdClass k v2)) ∧
    tierRank (labelTier (stdThresholdClass k v1)) ≤
      tierRank (labelTier (stdThresholdClass k v2)) ∧
    tierRank (labelTier (testThresholdClass k v1)) ≤
      tierRank (labelTier (testThresholdClass k v2)) := by
  refine ⟨?_, ?_, ?_⟩
  · simp only [enhThresholdClass]
    split_ifs <;> first | decide | (exfalso; linarith)
  · simp only [stdThresholdClass]
    split_ifs <;> first | decide | (exfalso; linarith)
  · simp only [testThresholdClass]
    split_ifs <;> first | decide | (exfalso; linarith)

/-- Witness for `C6_classifier_monotone` at kind FCP, values 1 < 2. -/
theorem C6_classifier_monotone_witness :
    tierRank (labelTier (enhThresholdClass MetricKind.fcp 1)) ≤
      tierRank (labelTier (enhThresholdClass MetricKind.fcp 2)) ∧
    tierRank (labelTier (stdThresholdClass MetricKind.fcp 1)) ≤
      tierRank (labelTier (stdThresholdClass MetricKind.fcp 2)) ∧
    tierRank (labelTier (testThresholdClass MetricKind.fcp 1)) ≤
      tierRank (labelTier (testThresholdClass MetricKind.fcp 2)) :=
  C6_classifier_monotone MetricKind.fcp 1 2 (by norm_num)

/-! ### Helper lemmas for the `main.py` theorems -/

theorem assocLookup_dictInsert_self (d : List (String × ℤ)) (k : String) (v : ℤ) :
    assocLookup (dictInsert d k v) k = some v := by
  induction d with
  | nil => simp [dictInsert, assocLookup]
  | cons head rest ih =>
    obtain ⟨k', v'⟩ := head
    simp only [dictInsert]
    split_ifs with h
    · simp [assocLookup]
    · simpa [assocLookup, h] using ih

theorem assocLookup_dictInsert_ne (d : List (String × ℤ)) (k q : String) (v : ℤ)
    (h : q ≠ k) : assocLookup (dictInsert d k v) q = assocLookup d q := by
  have hk : ¬ k = q := fun hh => h hh.symm
  induction d with
  | nil => simp [dictInsert, assocLookup, hk]
  | cons head rest ih =>
    obtain ⟨k', v'⟩ := head
    simp only [dictInsert]
    split_ifs with he
    · subst he
      simp [assocLookup, hk]
    · simp only [assocLookup]
      split_ifs with hq
      · rfl
      · exact ih

theorem extractCategoriesAux_lookup_of_notmem (device : String) (name : String) :
    ∀ cats : List (String × Category),
      (∀ kc ∈ cats, catFieldName device kc.1 kc.2 ≠ name) →
      ∀ data, assocLookup (extractCategoriesAux device cats data) name = assocLookup data name := by
  intro cats
  induction cats with
  | nil => intro _ data; rfl
  | cons kc rest ih =>
    intro h data
    obtain ⟨key, cat⟩ := kc
    simp only [extractCategoriesAux]
    cases hs : cat.score with
    | none => exact ih (fun x hx => h x (List.mem_cons_of_mem _ hx)) data
    | some s =>
      rw [ih (fun x hx => h x (List.mem_cons_of_mem _ hx)),
        assocLookup_dictInsert_ne _ _ _ _ (Ne.symm (h (key, cat) (List.mem_cons_self _ _)))]

theorem extractCategoriesAux_lookup_of_mem (device key : String) (cat : Category) (s : ℚ) :
    ∀ cats : List (String × Category),
      (cats.map fun kc => catFieldName device kc.1 kc.2).Nodup →
      (key, cat) ∈ cats → cat.score = some s →
      ∀ data, assocLookup (extractCategoriesAux device cats data) (catFieldName device key cat) =
        some (pyIntTimes100 s) := by
  intro cats
  induction cats with
  | nil => intro _ hmem _ _; cases hmem
  | cons kc rest ih =>
    intro hnodup hmem hs data
    obtain ⟨k0, c0⟩ := kc
    rw [List.map_cons, List.nodup_cons] at hnodup
    rcases List.mem_cons.mp hmem with heq | hmem'
    · injection heq with hk hc
      subst hk; subst hc
      simp only [extractCategoriesAux, hs]
      have hnot : ∀ kc ∈ rest, catFieldName device kc.1 kc.2 ≠ catFieldName device key cat := by
        intro x hx hcontra
        exact hnodup.1 (hcontra ▸ List.mem_map_of_mem _ hx)
      rw [extractCategoriesAux_lookup_of_notmem device _ rest hnot,
        assocLookup_dictInsert_self]
    · simp only [extractCategoriesAux]
      cases hsc : c0.score with
      | none => exact ih hnodup.2 hmem' hs data
      | some s0 => exact ih hnodup.2 hmem' hs _

theorem oppStep_eq_some (audits : List (String × Audit)) (device url : String)
    (kd : String × String) (r : OppRecord)
    (h : oppStep audits device url kd = some r) :
    r.audit_id = kd.1 ∧
    r.impact = (if 1000 < r.potential_savings_ms then "High"
      else if 500 < r.potential_savings_ms then "Medium" else "Low") ∧
    ∃ a, assocLookup audits kd.1 = some a ∧
      (∃ s, a.score = some (some s) ∧ s < 1) ∧ 0 < a.savings.getD 0 := by
  rcases ha : assocLookup audits kd.1 with _ | a
  · simp [oppStep, ha] at h
  · rcases hsc : a.score with _ | (_ | s)
    · simp [oppStep, ha, hsc] at h
    · simp [oppStep, ha, hsc] at h
    · simp only [oppStep, ha, hsc] at h
      by_cases h1 : s < 1
      · rw [if_pos h1] at h
        by_cases hm : 0 < a.savings.getD 0
        · rw [if_pos hm] at h
          injection h with h
          subst h
          exact ⟨rfl, rfl, a, rfl, ⟨s, hsc, h1⟩, hm⟩
        · rw [if_neg hm] at h; cases h
      · rw [if_neg h1] at h; cases h

theorem oppStep_emits (audits : List (String × Audit)) (device url : String)
    (kd : String × String) (a : Audit) (s : ℚ)
    (ha : assocLookup audits kd.1 = some a) (hsc : a.score = some (some s))
    (h1 : s < 1) (hm : 0 < a.savings.getD 0) :
    ∃ r, oppStep audits device url kd = some r ∧ r.audit_id = kd.1 := by
  have h2 : (oppStep audits device url kd).isSome := by
    simp only [oppStep, ha, hsc]
    rw [if_pos h1, if_pos hm]
    rfl
  obtain ⟨r, hr⟩ := Option.isSome_iff_exists.mp h2
  exact ⟨r, hr, (oppStep_eq_some audits device url kd r hr).1⟩

theorem seoStep_eq_some (audits : List (String × Audit)) (device url : String)
    (kd : String × String) (r : SeoRecord)
    (h : seoStep audits device url kd = some r) :
    r.audit_id = kd.1 ∧ ∃ a, assocLookup audits kd.1 = some a ∧ r.status = seoStatusOf a := by
  rcases ha : assocLookup audits kd.1 with _ | a
  · simp [seoStep, ha] at h
  · simp only [seoStep, ha, Option.map_some'] at h
    injection h with h
    subst h
    exact ⟨rfl, a, rfl, rfl⟩

theorem seoStatusOf_cases (a : Audit) :
    seoStatusOf a = match a.score with
      | some (some q) => if q = 1 then "Pass" else if q = 0 then "Fail" else "Warning"
      | some none => "Warning"
      | none => "Fail" := by
  rcases hsc : a.score with _ | sc
  · simp [seoStatusOf, pyScoreGetD, hsc]
  · rcases sc with _ | q
    · simp [seoStatusOf, pyScoreGetD, hsc]
    · simp [seoStatusOf, pyScoreGetD, hsc]

theorem map_filterMap_sublist {α β γ : Type} (f : α → Option β) (g : β → γ) (p : α → γ)
    (hf : ∀ a b, f a = some b → g b = p a) :
    ∀ l : List α, List.Sublist ((l.filterMap f).map g) (l.map p) := by
  intro l
  induction l with
  | nil => simp
  | cons a t ih =>
    cases hfa : f a with
    | none =>
      rw [List.filterMap_cons_none hfa, List.map_cons]
      exact ih.cons _
    | some b =>
      rw [List.filterMap_cons_some hfa, List.map_cons, List.map_cons, hf a b hfa]
      exact ih.cons₂ _

theorem mem_fieldnamesFor_elim (clean : List (String × String)) :
    ∀ (init : List String) (f : String),
      f ∈ clean.foldl (fun fns kv => if fns.contains kv.1 then fns else fns ++ [kv.1]) init →
      f ∈ init ∨ f ∈ clean.map Prod.fst := by
  induction clean with
  | nil => intro init f h; exact Or.inl h
  | cons kv rest ih =>
    intro init f h
    rw [List.foldl_cons] at h
    rcases ih _ f h with hi | hr
    · by_cases hc : init.contains kv.1
      · rw [if_pos hc] at hi
        exact Or.inl hi
      · rw [if_neg hc] at hi
        rcases List.mem_append.mp hi with hi' | hi'
        · exact Or.inl hi'
        · exact Or.inr (by simpa using Or.inl (List.mem_singleton.mp hi'))
    · exact Or.inr (List.mem_cons_of_mem _ hr)

/-! ### Theorems: extraction and storage claims -/

/-- C3 (counterexample): `extract_lighthouse_data` computes
`int(score * 100)` (truncation) over a field named from the category
title, not `round(score * 100)` over the category key: with key
`best-practices`, title `Best Practices` and score 0.855 the emitted
field is `desktop_best_practices = 85`, while the claim demands
`desktop_best-practices = round(85.5) = 86`. -/
theorem C3_round_counterexample :
    extract_lighthouse_data_categories
        [("best-practices", ⟨some "Best Practices", some (mkRat 855 1000)⟩)] "desktop"
      = [("desktop_best_practices", 85)] ∧
    assocLookup (extract_lighthouse_data_categories
        [("best-practices", ⟨some "Best Practices", some (mkRat 855 1000)⟩)] "desktop")
        "desktop_best-practices" = none ∧
    round ((855 : ℚ) / 1000 * 100) = 86 := by
  refine ⟨by decide, by decide, ?_⟩
  norm_num [round_eq]

/-- C3 (amended): for every payload whose categories map to pairwise
distinct field names, every device tag and every category entry with a
non-null score `s`, the extractor's output maps the field
`{device}_{lowercased title with spaces replaced by underscores,
falling back to the category key}` to `int(s * 100)` (truncation toward
zero); in particular a category score of 0.85 yields 85. -/
theorem C3_category_fields_amended (cats : List (String × Category)) (device key : String)
    (cat : Category) (s : ℚ)
    (hnodup : (cats.map fun kc => catFieldName device kc.1 kc.2).Nodup)
    (hmem : (key, cat) ∈ cats) (hs : cat.score = some s) :
    assocLookup (extract_lighthouse_data_categories cats device)
      (catFieldName device key cat) = some (pyIntTimes100 s) :=
  extractCategoriesAux_lookup_of_mem device key cat s cats hnodup hmem hs []

/-- Witness for `C3_category_fields_amended`: a category score of 0.85
yields the field value 85. -/
theorem C3_category_fields_amended_witness :
    assocLookup (extract_lighthouse_data_categories
        [("performance", ⟨some "Performance", some (mkRat 85 100)⟩)] "desktop")
      (catFieldName "desktop" "performance" ⟨some "Performance", some (mkRat 85 100)⟩)
      = some (pyIntTimes100 (mkRat 85 100)) ∧
    pyIntTimes100 (mkRat 85 100) = 85 := by
  constructor
  · exact C3_category_fields_amended
      [("performance", ⟨some "Performance", some (mkRat 85 100)⟩)] "desktop" "performance"
      ⟨some "Performance", some (mkRat 85 100)⟩ (mkRat 85 100) (by decide) (by decide) rfl
  · decide

/-- C7: the Opportunity Miner emits a record for a catalog audit key
exactly when the audit is present with a numeric score `< 1` and a
strictly positive `details.overallSavingsMs` (zero, negative or absent
savings are skipped even when the score is below 1), and every emitted
record's impact is High when savings exceed 1000 ms, Medium when they
exceed 500 ms, and Low otherwise. -/
theorem C7_opportunity_miner (audits : List (String × Audit)) (device url k : String)
    (hk : k ∈ opportunity_audits.map Prod.fst) :
    ((∃ r ∈ extract_performance_opportunities audits device url, r.audit_id = k) ↔
      ∃ a, assocLookup audits k = some a ∧
        (∃ s, a.score = some (some s) ∧ s < 1) ∧ 0 < a.savings.getD 0) ∧
    ∀ r ∈ extract_performance_opportunities audits device url,
      r.impact = if 1000 < r.potential_savings_ms then "High"
        else if 500 < r.potential_savings_ms then "Medium" else "Low" := by
  constructor
  · constructor
    · rintro ⟨r, hr, hid⟩
      obtain ⟨kd, hkd, hstep⟩ := List.mem_filterMap.mp hr
      obtain ⟨hid', _, a, ha, hcond⟩ := oppStep_eq_some audits device url kd r hstep
      rw [← hid, hid']
      exact ⟨a, ha, hcond⟩
    · rintro ⟨a, ha, ⟨s, hsc, h1⟩, hm⟩
      obtain ⟨⟨k0, d0⟩, hmem, hfst⟩ := List.mem_map.mp hk
      simp only at hfst
      subst hfst
      obtain ⟨r, hstep, hid⟩ := oppStep_emits audits device url (k0, d0) a s ha hsc h1 hm
      exact ⟨r, List.mem_filterMap.mpr ⟨(k0, d0), hmem, hstep⟩, hid⟩
  · intro r hr
    obtain ⟨kd, hkd, hstep⟩ := List.mem_filterMap.mp hr
    exact (oppStep_eq_some audits device url kd r hstep).2.1

/-- Witness for `C7_opportunity_miner`: an opportunity audit with score
0.9 and `overallSavingsMs = 1200` is emitted, and every record of that
extraction has the High/Medium/Low impact formula (1200 > 1000 gives
High). -/
theorem C7_opportunity_miner_witness :
    (∃ r ∈ extract_performance_opportunities
        [("uses-optimized-images", ⟨some (some (mkRat 9 10)), some 1200, some "T", none, none⟩)]
        "mobile" "https://a.com", r.audit_id = "uses-optimized-images") ∧
    (extract_performance_opportunities
        [("uses-optimized-images", ⟨some (some (mkRat 9 10)), some 1200, some "T", none, none⟩)]
        "mobile" "https://a.com").map OppRecord.impact = ["High"] := by
  constructor
  · exact (C7_opportunity_miner
        [("uses-optimized-images", ⟨some (some (mkRat 9 10)), some 1200, some "T", none, none⟩)]
        "mobile" "https://a.com" "uses-optimized-images" (by decide)).1.mpr
      ⟨_, rfl, ⟨mkRat 9 10, rfl, by decide⟩, by decide⟩
  · decide

/-- C8 (counterexample): the spec claims an absent score field yields
status Warning, but `audit.get('score', 0)` defaults an absent score to
0, so the emitted status is Fail. -/
theorem C8_absent_score_counterexample :
    (extract_seo_details [("meta-description", ⟨none, none, some "Meta description", none, none⟩)]
        "mobile" "https://a.com").map SeoRecord.status = ["Fail"] ∧
    ("Fail" : String) ≠ "Warning" := by
  refine ⟨by decide, by decide⟩

/-- C8 (amended): for every SEO-catalog audit present in the payload
(regardless of score) exactly one record is emitted (one matching record
exists and emitted audit ids are pairwise distinct), with status Pass
when the score is 1, Fail when it is 0 **or the score field is absent**
(the getter defaults an absent score to 0), and Warning otherwise —
including a null score. -/
theorem C8_seo_status_amended (audits : List (String × Audit)) (device url k : String)
    (hk : k ∈ seo_audits.map Prod.fst) :
    ((∃ r ∈ extract_seo_details audits device url, r.audit_id = k) ↔
      (assocLookup audits k).isSome) ∧
    ((extract_seo_details audits device url).map SeoRecord.audit_id).Nodup ∧
    (∀ r ∈ extract_seo_details audits device url, r.audit_id = k →
      ∀ a, assocLookup audits k = some a →
        r.status = match a.score with
          | some (some q) => if q = 1 then "Pass" else if q = 0 then "Fail" else "Warning"
          | some none => "Warning"
          | none => "Fail") := by
  refine ⟨⟨?_, ?_⟩, ?_, ?_⟩
  · rintro ⟨r, hr, hid⟩
    obtain ⟨kd, hkd, hstep⟩ := List.mem_filterMap.mp hr
    obtain ⟨hid', a, ha, _⟩ := seoStep_eq_some audits device url kd r hstep
    rw [← hid, hid', ha]
    rfl
  · intro hsome
    obtain ⟨a, ha⟩ := Option.isSome_iff_exists.mp hsome
    obtain ⟨⟨k0, d0⟩, hmem, hfst⟩ := List.mem_map.mp hk
    simp only at hfst
    subst hfst
    have hstep : (seoStep audits device url (k0, d0)).isSome := by
      simp [seoStep, ha]
    obtain ⟨r, hr⟩ := Option.isSome_iff_exists.mp hstep
    exact ⟨r, List.mem_filterMap.mpr ⟨(k0, d0), hmem, hr⟩,
      (seoStep_eq_some audits device url (k0, d0) r hr).1⟩
  · have hsub := map_filterMap_sublist (seoStep audits device url) SeoRecord.audit_id Prod.fst
      (fun kd r h => (seoStep_eq_some audits device url kd r h).1) seo_audits
    exact hsub.nodup (by decide)
  · intro r hr hid a ha
    obtain ⟨kd, hkd, hstep⟩ := List.mem_filterMap.mp hr
    obtain ⟨hid', a', ha', hst⟩ := seoStep_eq_some audits device url kd r hstep
    rw [hid'] at hid
    rw [hid] at ha'
    rw [ha] at ha'
    cases ha'
    rw [hst, seoStatusOf_cases]

/-- Witness for `C8_seo_status_amended`: a present SEO audit with a null
score yields exactly one record with status Warning. -/
theorem C8_seo_status_amended_witness :
    (∃ r ∈ extract_seo_details
        [("meta-description", ⟨some none, none, some "Meta description", none, none⟩)]
        "mobile" "https://a.com", r.audit_id = "meta-description") ∧
    (extract_seo_details
        [("meta-description", ⟨some none, none, some "Meta description", none, none⟩)]
        "mobile" "https://a.com").map SeoRecord.status = ["Warning"] := by
  constructor
  · exact (C8_seo_status_amended
        [("meta-description", ⟨some none, none, some "Meta description", none, none⟩)]
        "mobile" "https://a.com" "meta-description" (by decide)).1.mpr (by decide)
  · decide

/-- C9 (counterexample): the spec claims the header row is written on
the first write when the storage is empty **or** nonexistent, but
`write_to_csv` tests only file existence: a write to an existing empty
file appends the data row alone and never writes a header. -/
theorem C9_empty_store_counterexample :
    write_to_csv (some []) [("url", "https://a.com")]
      = some [dataRowFor (cleanData [("url", "https://a.com")])] ∧
    dataRowFor (cleanData [("url", "https://a.com")])
      ≠ fieldnamesFor (cleanData [("url", "https://a.com")]) := by
  refine ⟨by decide, by decide⟩

/-- C9 (amended): the header row is written exactly once, on the first
write when the storage is **nonexistent** (a pre-existing empty file
receives no header); every write of a nonempty record appends exactly
one data row with no duplicate check, so two writes of the same
identity URL leave two data rows after the single header. -/
theorem C9_append_only_amended (data : List (String × String)) (hd : data ≠ []) :
    write_to_csv none data
      = some [fieldnamesFor (cleanData data), dataRowFor (cleanData data)] ∧
    (∀ rows, write_to_csv (some rows) data = some (rows ++ [dataRowFor (cleanData data)])) ∧
    write_to_csv (write_to_csv none data) data
      = some [fieldnamesFor (cleanData data), dataRowFor (cleanData data),
          dataRowFor (cleanData data)] := by
  refine ⟨?_, ?_, ?_⟩
  · simp [write_to_csv, hd]
  · intro rows
    simp [write_to_csv, hd]
  · simp [write_to_csv, hd]

/-- Witness for `C9_append_only_amended`: two writes of the same URL
record leave one header row and two equal data rows. -/
theorem C9_append_only_amended_witness :
    write_to_csv (write_to_csv none [("url", "https://a.com")]) [("url", "https://a.com")]
      = some [fieldnamesFor (cleanData [("url", "https://a.com")]),
          dataRowFor (cleanData [("url", "https://a.com")]),
          dataRowFor (cleanData [("url", "https://a.com")])] :=
  (C9_append_only_amended [("url", "https://a.com")] (by decide)).2.2

/-- C10: `write_to_csv` drops every key beginning with an underscore
before building the row: the clean record holds exactly the
non-underscore entries of the input (which is itself left untouched —
the comprehension builds a fresh dict), and no fieldname of the
persisted row begins with an underscore. -/
theorem C10_no_underscore_fields (data : List (String × String)) :
    (∀ f ∈ fieldnamesFor (cleanData data), startsWithUnderscore f = false) ∧
    (∀ kv : String × String,
      kv ∈ cleanData data ↔ (kv ∈ data ∧ startsWithUnderscore kv.1 = false)) := by
  constructor
  · intro f hf
    rcases mem_fieldnamesFor_elim (cleanData data) baseFieldnames f hf with hbase | hkey
    · have hb : ∀ g ∈ baseFieldnames, startsWithUnderscore g = false := by decide
      exact hb f hbase
    · obtain ⟨kv, hkv, hfst⟩ := List.mem_map.mp hkey
      obtain ⟨_, hp⟩ := List.mem_filter.mp hkv
      rw [← hfst]
      exact Bool.not_eq_true' .. |>.mp hp
  · intro kv
    rw [cleanData, List.mem_filter, Bool.not_eq_true' ..]

/-- Witness for `C10_no_underscore_fields`: with an internal
`_opportunities` key present, the fieldnames stay underscore-free and
the internal key is stripped while the ordinary key survives. -/
theorem C10_no_underscore_fields_witness :
    startsWithUnderscore "url" = false ∧
    ("_opportunities", "x") ∉ cleanData [("url", "y"), ("_opportunities", "x")] ∧
    ("url", "y") ∈ cleanData [("url", "y"), ("_opportunities", "x")] := by
  refine ⟨?_, ?_, ?_⟩
  · exact (C10_no_underscore_fields [("url", "y"), ("_opportunities", "x")]).1 "url" (by decide)
  · intro hmem
    have h := ((C10_no_underscore_fields [("url", "y"), ("_opportunities", "x")]).2
      ("_opportunities", "x")).mp hmem
    exact absurd h.2 (by decide)
  · exact ((C10_no_underscore_fields [("url", "y"), ("_opportunities", "x")]).2
      ("url", "y")).mpr ⟨by decide, by decide⟩

end LighthouseSuite
